import Mathlib

/-!
Shallow embedding of
`src/webapp/src/components/backstage/playbook_edit/metrics/metrics.tsx`:
the `Metrics` list-editor component of the playbooks plugin webapp.

The component's React state (`saveMetricToggle`, `nextTask`, `deletingIdx`),
the lifted state (`curEditingMetric`, the `playbook`, the changes-made flag)
and the handlers (`requestAddMetric`, `requestEditMetric`,
`requestDeleteMetric`, `addMetric`, `saveMetric`, `confirmedDelete`,
cancel of the confirm modal, `saveFailed`) are embedded as pure transition
functions on an explicit state record.

Embedding conventions:
* each `setX(v)` call is an immediate update of the field `X` of the state;
  a functional update `setX(f)` applies `f` to the current value of `X`.
  Within one handler this is observationally equivalent to React's
  batched processing, except that reads of the render-time constants
  (the `playbook` prop, `curEditingMetric`) keep their snapshot value:
  the embedding is careful to read the snapshot exactly where the source
  closure does (in particular line 131 of the source reads the snapshot
  `playbook.metrics[index]`, not the freshly committed list);
* JavaScript `Array.prototype.splice` with its index clamping is embedded
  by `jsSpliceReplaceOne` / `jsSpliceRemoveOne`;
* `deletingIdx` is an `Int` with sentinel `-1`, as in the source.
-/

namespace PlaybookMetrics

/-- The metric type tag, from the source's `MetricType` (Duration, Currency,
Integer are the three options offered by the add-metric menu). -/
inductive MetricType where
  | duration
  | currency
  | integer
  deriving DecidableEq, Repr

/-- Modelled from the spec: the `Metric` record of `src/types/playbook` is not
under `src/`; per the spec's data model it has an `id` (empty-string sentinel
meaning "not yet persisted"), a `title`, a `type` tag and a numeric `target`. -/
structure Metric where
  id : String
  title : String
  type : MetricType
  target : Int
  deriving DecidableEq, Repr

/-- Modelled from the spec: `newMetric` of `src/types/playbook` is not under
`src/`; per the spec it creates a new draft Metric of the given type, not yet
persisted (empty-string id). -/
def newMetric (t : MetricType) : Metric :=
  { id := "", title := "", type := t, target := 0 }

/-- The playbook entity. Only its `metrics` field is touched by this
component; `rest` abstracts every other field, all preserved verbatim by the
`{...pb, metrics}` spreads in `saveMetric` and `confirmedDelete`. -/
structure Playbook where
  metrics : List Metric
  rest : Nat
  deriving DecidableEq, Repr

/-- `EditingMetric` from `playbook_edit.tsx`: the pair of an array index and
the draft metric currently being edited. -/
structure EditingMetric where
  index : Nat
  metric : Metric
  deriving DecidableEq, Repr

/-- The pending `Task`. In the source `Task` is `{type, addType?, index?}`;
each construction site (lines 65, 80, 92) fills exactly the fields of the
corresponding constructor, so the `undefined` defaults at lines 126, 130 and
135 are unreachable and the embedding gives each constructor its fields. -/
inductive Task where
  | add (addType : MetricType)
  | edit (index : Nat)
  | delete (index : Nat)
  deriving DecidableEq, Repr

/-- The component state: the lifted `playbook` / `curEditingMetric` /
changes-made flag plus the local `saveMetricToggle`, `nextTask`,
`deletingIdx` React state. -/
structure CompState where
  playbook : Playbook
  curEditingMetric : Option EditingMetric
  nextTask : Option Task
  deletingIdx : Int
  saveMetricToggle : Bool
  changesMade : Bool
  deriving DecidableEq, Repr

/-- JavaScript `l.splice(start, 1, x)` on a copy of `l`: the start index is
clamped to the list length, one element (if any) is removed there and `x` is
inserted in its place. -/
def jsSpliceReplaceOne {α : Type} (l : List α) (start : Nat) (x : α) : List α :=
  let a := min start l.length
  l.take a ++ x :: l.drop (a + 1)

/-- JavaScript `l.splice(start, 1)` on a copy of `l`, with a possibly negative
start: a negative start counts from the end clamped at 0, a nonnegative one is
clamped to the length; one element (if any) is removed there. -/
def jsSpliceRemoveOne {α : Type} (l : List α) (start : Int) : List α :=
  let a : Nat := if start < 0 then l.length - (-start).toNat else min start.toNat l.length
  l.take a ++ l.drop (a + 1)

/-- Placeholder for the JavaScript `undefined` read `playbook.metrics[i]` out
of range; every handler of the component only indexes with rendered, in-range
indices, where `getMetric l i = l[i]`. -/
def defaultMetric : Metric :=
  { id := "", title := "", type := MetricType.duration, target := 0 }

/-- `playbook.metrics[index]` (the source also shallow-copies it with a
spread, which is the identity on the record value). -/
def getMetric (l : List Metric) (i : Nat) : Metric :=
  l.getD i defaultMetric

/-- `addMetric(metricType, index)` (source lines 96-103): opens a fresh draft
of the given type at `index` and flags changes made. -/
def addMetric (s : CompState) (metricType : MetricType) (index : Nat) : CompState :=
  { s with
      curEditingMetric := some { index := index, metric := newMetric metricType },
      changesMade := true }

/-- `requestAddMetric(addType)` (source lines 57-67): add immediately when no
editor is open (at the end of the list), otherwise queue an add task and flip
the save toggle. -/
def requestAddMetric (s : CompState) (addType : MetricType) : CompState :=
  match s.curEditingMetric with
  | none => addMetric s addType s.playbook.metrics.length
  | some _ =>
      { s with
          nextTask := some (Task.add addType),
          saveMetricToggle := !s.saveMetricToggle }

/-- `requestEditMetric(index)` (source lines 69-82): edit immediately when no
editor is open, otherwise queue an edit task and flip the save toggle. -/
def requestEditMetric (s : CompState) (index : Nat) : CompState :=
  match s.curEditingMetric with
  | none =>
      { s with
          curEditingMetric :=
            some { index := index, metric := getMetric s.playbook.metrics index } }
  | some _ =>
      { s with
          nextTask := some (Task.edit index),
          saveMetricToggle := !s.saveMetricToggle }

/-- `requestDeleteMetric(index)` (source lines 84-94): confirm immediately
when no editor is open or the open editor is at the requested index,
otherwise queue a delete task and flip the save toggle. -/
def requestDeleteMetric (s : CompState) (index : Nat) : CompState :=
  match s.curEditingMetric with
  | none => { s with deletingIdx := (index : Int) }
  | some em =>
      if em.index = index then
        { s with deletingIdx := (index : Int) }
      else
        { s with
            nextTask := some (Task.delete index),
            saveMetricToggle := !s.saveMetricToggle }

/-- `saveMetric(target)` (source lines 105-142). If an editor is open, its
draft with the final `target` is splice-committed into the metrics list at
the editing index (`length` is reassigned to the committed list's length
inside the `setPlaybook` updater) and changes are flagged. Then the pending
task, if any, runs: an add opens a fresh draft at index `length`, an edit
reopens the editor on the snapshot `playbook.metrics[index]` (the render-time
closure value, line 131), a delete opens the confirm prompt; with no pending
task the editor closes. Finally the pending task is cleared. -/
def saveMetric (s : CompState) (target : Int) : CompState :=
  let snapshot := s.playbook
  let committed :=
    match s.curEditingMetric with
    | some em =>
        let metric := { em.metric with target := target }
        let metrics := jsSpliceReplaceOne snapshot.metrics em.index metric
        ({ s with
            playbook := { snapshot with metrics := metrics },
            changesMade := true },
         metrics.length)
    | none => (s, snapshot.metrics.length)
  let s1 := committed.1
  let length := committed.2
  let s2 :=
    match s.nextTask with
    | some (Task.add t) => addMetric s1 t length
    | some (Task.edit index) =>
        { s1 with
            curEditingMetric :=
              some { index := index, metric := getMetric snapshot.metrics index } }
    | some (Task.delete index) => { s1 with deletingIdx := (index : Int) }
    | none => { s1 with curEditingMetric := none }
  { s2 with nextTask := none }

/-- `confirmedDelete()` (source lines 144-157): splice-removes the metric at
`deletingIdx`, flags changes, resets `deletingIdx` to the sentinel and closes
any open editor. -/
def confirmedDelete (s : CompState) : CompState :=
  { s with
      playbook :=
        { s.playbook with
            metrics := jsSpliceRemoveOne s.playbook.metrics s.deletingIdx },
      changesMade := true,
      deletingIdx := -1,
      curEditingMetric := none }

/-- `onCancel` of the confirm modal (source line 241): clears the deleting
index only. -/
def cancelDelete (s : CompState) : CompState :=
  { s with deletingIdx := -1 }

/-- `saveFailed` callback passed to the editor row (source line 184):
discards the pending task and nothing else. -/
def saveFailed (s : CompState) : CompState :=
  { s with nextTask := none }

/-- The displayed list (source lines 160-163): the committed metrics with the
in-progress draft spliced in at its index, if any. -/
def displayedMetrics (s : CompState) : List Metric :=
  match s.curEditingMetric with
  | none => s.playbook.metrics
  | some em => jsSpliceReplaceOne s.playbook.metrics em.index em.metric

/-- The `disabled` condition of the add-metric menu button (source line 208):
`disabled || metrics.length >= 4` over the displayed list. -/
def addMetricDisabled (s : CompState) (disabled : Bool) : Bool :=
  disabled || decide (4 ≤ (displayedMetrics s).length)

/-! Concrete metrics and states used by the sanity witnesses below. -/

def mAlpha : Metric := { id := "m1", title := "Alpha", type := .duration, target := 10 }

def mBeta : Metric := { id := "m2", title := "Beta", type := .currency, target := 20 }

def mGamma : Metric := { id := "", title := "Gamma", type := .integer, target := 30 }

/-! ## List lemmas about the JavaScript splice embeddings -/

theorem jsSpliceReplaceOne_getElem? {α : Type} (l : List α) (i k : Nat) (x : α) :
    (jsSpliceReplaceOne l i x)[k]? = if k = min i l.length then some x else l[k]? := by
  unfold jsSpliceReplaceOne
  have hta : (l.take (min i l.length)).length = min i l.length := by
    simp [List.length_take]
  rw [List.getElem?_append, hta]
  rcases Nat.lt_trichotomy k (min i l.length) with hk | hk | hk
  · rw [if_pos hk, if_neg (Nat.ne_of_lt hk), List.getElem?_take_of_lt hk]
  · subst hk
    simp
  · rw [if_neg (by omega), if_neg (by omega)]
    have h1 : k - min i l.length = (k - min i l.length - 1) + 1 := by omega
    rw [h1, List.getElem?_cons_succ, List.getElem?_drop]
    congr 1
    omega

theorem jsSpliceReplaceOne_length_of_lt {α : Type} (l : List α) (i : Nat) (x : α)
    (hi : i < l.length) : (jsSpliceReplaceOne l i x).length = l.length := by
  unfold jsSpliceReplaceOne
  simp [List.length_take]
  omega

theorem getMetric_spliceReplace_ne (l : List Metric) (i j : Nat) (x : Metric)
    (hj : j < l.length) (hij : j ≠ i) :
    getMetric (jsSpliceReplaceOne l i x) j = getMetric l j := by
  unfold getMetric
  rw [List.getD_eq_getElem?_getD, List.getD_eq_getElem?_getD,
    jsSpliceReplaceOne_getElem?, if_neg (by omega)]

theorem getMetric_spliceReplace_self (l : List Metric) (i : Nat) (x : Metric)
    (hi : i < l.length) :
    getMetric (jsSpliceReplaceOne l i x) i = x := by
  unfold getMetric
  rw [List.getD_eq_getElem?_getD, jsSpliceReplaceOne_getElem?, if_pos (by omega)]
  rfl

theorem jsSpliceRemoveOne_ofNat {α : Type} (l : List α) (d : Nat) (hd : d ≤ l.length) :
    jsSpliceRemoveOne l (d : Int) = l.take d ++ l.drop (d + 1) := by
  unfold jsSpliceRemoveOne
  rw [if_neg (by omega)]
  simp [Nat.min_eq_left hd]

/-- The playbook after `saveMetric` with an open editor: the draft (with its
final target) splice-committed at the editing index, every other playbook
field untouched, whatever the pending task is. -/
theorem saveMetric_playbook (s : CompState) (t : Int) (i : Nat) (m : Metric)
    (hce : s.curEditingMetric = some ⟨i, m⟩) :
    (saveMetric s t).playbook =
      { s.playbook with
          metrics := jsSpliceReplaceOne s.playbook.metrics i { m with target := t } } := by
  rcases hnt : s.nextTask with _ | task
  · simp [saveMetric, hce, hnt]
  · cases task <;> simp [saveMetric, hce, hnt, addMetric]

/-! ## Claim C1 -/

def stC1 : CompState :=
  { playbook := { metrics := [mAlpha, mBeta], rest := 7 },
    curEditingMetric := some { index := 0, metric := mAlpha },
    nextTask := some (Task.delete 1),
    deletingIdx := -1,
    saveMetricToggle := false,
    changesMade := false }

/-- Claim C1 counterexample: from the state with the editor open at index 0
and a pending delete task for index 1, `saveMetric` opens the delete prompt
for index 1 yet leaves the editor open at index 0 — `curEditingMetric` is not
null, refuting the claimed invariant at a concrete input. -/
theorem saveMetric_pending_delete_editor_not_closed_cex :
    (saveMetric stC1 5).deletingIdx = 1 ∧
    (saveMetric stC1 5).curEditingMetric = some { index := 0, metric := mAlpha } ∧
    ¬((saveMetric stC1 5).curEditingMetric = none) := by
  decide

/-- Claim C1 (amended): after `saveMetric` runs with a pending delete task
for index j while the editor was open at index i (i different from j), the
delete prompt is open for j and the editor REMAINS open at index i with its
draft unchanged; `curEditingMetric` becomes null only once the delete is
confirmed via `confirmedDelete`. -/
theorem saveMetric_pending_delete_keeps_editor (s : CompState) (t : Int)
    (i j : Nat) (m : Metric)
    (hce : s.curEditingMetric = some ⟨i, m⟩)
    (hnt : s.nextTask = some (Task.delete j))
    (_hij : i ≠ j) :
    (saveMetric s t).deletingIdx = (j : Int) ∧
    (saveMetric s t).curEditingMetric = some ⟨i, m⟩ ∧
    (saveMetric s t).nextTask = none ∧
    (confirmedDelete (saveMetric s t)).curEditingMetric = none := by
  refine ⟨?_, ?_, ?_, ?_⟩ <;> simp [saveMetric, confirmedDelete, hce, hnt]

/-- Witness for the amended C1 at a concrete state. -/
theorem saveMetric_pending_delete_keeps_editor_witness :
    (saveMetric stC1 5).deletingIdx = (1 : Int) ∧
    (saveMetric stC1 5).curEditingMetric = some ⟨0, mAlpha⟩ ∧
    (saveMetric stC1 5).nextTask = none ∧
    (confirmedDelete (saveMetric stC1 5)).curEditingMetric = none :=
  saveMetric_pending_delete_keeps_editor stC1 5 0 1 mAlpha rfl rfl (by decide)

/-! ## Claim C2 -/

def stC2 : CompState :=
  { playbook := { metrics := [mAlpha, mBeta, mGamma], rest := 7 },
    curEditingMetric := some { index := 0, metric := { mAlpha with title := "Alpha edited" } },
    nextTask := some (Task.edit 1),
    deletingIdx := -1,
    saveMetricToggle := false,
    changesMade := false }

/-- Claim C2: with the editor open at index i and a pending edit task for
index j (i different from j, j in range), `saveMetric(target)` leaves the
editor open at index j with a draft equal to the metric at index j of the
post-commit list, i.e. of the list obtained by splice-replacing the previous
draft (with its target set) at index i. -/
theorem saveMetric_pending_edit_opens_postcommit (s : CompState) (t : Int)
    (i j : Nat) (m : Metric)
    (hce : s.curEditingMetric = some ⟨i, m⟩)
    (hnt : s.nextTask = some (Task.edit j))
    (hij : i ≠ j)
    (hj : j < s.playbook.metrics.length) :
    (saveMetric s t).playbook.metrics =
      jsSpliceReplaceOne s.playbook.metrics i { m with target := t } ∧
    (saveMetric s t).curEditingMetric =
      some { index := j,
             metric :=
               getMetric (jsSpliceReplaceOne s.playbook.metrics i { m with target := t }) j } := by
  refine ⟨?_, ?_⟩
  · simp [saveMetric, hce, hnt]
  · rw [getMetric_spliceReplace_ne s.playbook.metrics i j _ hj (Ne.symm hij)]
    simp [saveMetric, hce, hnt]

/-- Witness for C2 at a concrete state: editing index 0, pending edit of
index 1. -/
theorem saveMetric_pending_edit_opens_postcommit_witness :
    (saveMetric stC2 5).playbook.metrics =
      jsSpliceReplaceOne stC2.playbook.metrics 0
        { { mAlpha with title := "Alpha edited" } with target := 5 } ∧
    (saveMetric stC2 5).curEditingMetric =
      some { index := 1,
             metric :=
               getMetric
                 (jsSpliceReplaceOne stC2.playbook.metrics 0
                   { { mAlpha with title := "Alpha edited" } with target := 5 }) 1 } :=
  saveMetric_pending_edit_opens_postcommit stC2 5 0 1
    { mAlpha with title := "Alpha edited" } rfl rfl (by decide) (by decide)

/-! ## Claim C3 -/

def stC3 : CompState :=
  { playbook := { metrics := [mAlpha, mBeta], rest := 7 },
    curEditingMetric := some { index := 1, metric := { mBeta with title := "Beta edited" } },
    nextTask := some (Task.add MetricType.integer),
    deletingIdx := -1,
    saveMetricToggle := true,
    changesMade := true }

/-- Claim C3: with the editor open at index i and a pending add task of type
T, `saveMetric(target)` commits the prior draft (with its target set) at
index i of the metrics list and opens a new draft metric of type T whose
editing index equals the length of the post-commit list. -/
theorem saveMetric_pending_add_appends (s : CompState) (t : Int)
    (i : Nat) (m : Metric) (T : MetricType)
    (hce : s.curEditingMetric = some ⟨i, m⟩)
    (hnt : s.nextTask = some (Task.add T)) :
    (saveMetric s t).playbook.metrics =
      jsSpliceReplaceOne s.playbook.metrics i { m with target := t } ∧
    (saveMetric s t).curEditingMetric =
      some { index := (jsSpliceReplaceOne s.playbook.metrics i { m with target := t }).length,
             metric := newMetric T } ∧
    (saveMetric s t).nextTask = none := by
  refine ⟨?_, ?_, ?_⟩ <;> simp [saveMetric, hce, hnt, addMetric]

/-- Witness for C3 at a concrete state: editing index 1 of a two-element
list, pending add of an integer metric; the new draft opens at index 2. -/
theorem saveMetric_pending_add_appends_witness :
    (saveMetric stC3 5).playbook.metrics =
      jsSpliceReplaceOne stC3.playbook.metrics 1
        { { mBeta with title := "Beta edited" } with target := 5 } ∧
    (saveMetric stC3 5).curEditingMetric =
      some { index :=
               (jsSpliceReplaceOne stC3.playbook.metrics 1
                 { { mBeta with title := "Beta edited" } with target := 5 }).length,
             metric := newMetric MetricType.integer } ∧
    (saveMetric stC3 5).nextTask = none :=
  saveMetric_pending_add_appends stC3 5 1 { mBeta with title := "Beta edited" }
    MetricType.integer rfl rfl

/-! ## Claim C4 -/

def stC4 : CompState :=
  { playbook := { metrics := [mAlpha, mBeta, mGamma], rest := 7 },
    curEditingMetric := none,
    nextTask := none,
    deletingIdx := 1,
    saveMetricToggle := false,
    changesMade := false }

/-- Claim C4: when `deletingIdx` is a valid index d into the metrics list,
`confirmedDelete()` removes exactly the element at d (every element before d
unchanged, every element from d on shifted left by one, length decreased by
one), resets `deletingIdx` to the -1 sentinel and leaves no open editor. -/
theorem confirmedDelete_removes_at_index (s : CompState) (d : Nat)
    (hdel : s.deletingIdx = (d : Int))
    (hd : d < s.playbook.metrics.length) :
    (confirmedDelete s).playbook.metrics =
      s.playbook.metrics.take d ++ s.playbook.metrics.drop (d + 1) ∧
    (confirmedDelete s).playbook.metrics.length = s.playbook.metrics.length - 1 ∧
    (∀ k, k < d → (confirmedDelete s).playbook.metrics[k]? = s.playbook.metrics[k]?) ∧
    (∀ k, d ≤ k → (confirmedDelete s).playbook.metrics[k]? = s.playbook.metrics[k + 1]?) ∧
    (confirmedDelete s).deletingIdx = -1 ∧
    (confirmedDelete s).curEditingMetric = none := by
  have hmain : (confirmedDelete s).playbook.metrics =
      s.playbook.metrics.take d ++ s.playbook.metrics.drop (d + 1) := by
    simp only [confirmedDelete, hdel]
    exact jsSpliceRemoveOne_ofNat _ d (Nat.le_of_lt hd)
  have htake : (s.playbook.metrics.take d).length = d := by
    simp [List.length_take]
    omega
  refine ⟨hmain, ?_, ?_, ?_, rfl, rfl⟩
  · rw [hmain]
    simp [List.length_take]
    omega
  · intro k hk
    rw [hmain, List.getElem?_append, htake, if_pos hk, List.getElem?_take_of_lt hk]
  · intro k hk
    rw [hmain, List.getElem?_append, htake, if_neg (by omega), List.getElem?_drop]
    congr 1
    omega

/-- Witness for C4 at a concrete state: deleting index 1 of
[mAlpha, mBeta, mGamma]. -/
theorem confirmedDelete_removes_at_index_witness :
    (confirmedDelete stC4).playbook.metrics =
      stC4.playbook.metrics.take 1 ++ stC4.playbook.metrics.drop 2 ∧
    (confirmedDelete stC4).playbook.metrics.length = stC4.playbook.metrics.length - 1 ∧
    (∀ k, k < 1 → (confirmedDelete stC4).playbook.metrics[k]? = stC4.playbook.metrics[k]?) ∧
    (∀ k, 1 ≤ k → (confirmedDelete stC4).playbook.metrics[k]? = stC4.playbook.metrics[k + 1]?) ∧
    (confirmedDelete stC4).deletingIdx = -1 ∧
    (confirmedDelete stC4).curEditingMetric = none :=
  confirmedDelete_removes_at_index stC4 1 rfl (by decide)

/-! ## Claim C5 -/

def stC5 : CompState :=
  { playbook := { metrics := [mAlpha, mBeta, mGamma], rest := 7 },
    curEditingMetric := some { index := 1, metric := { mBeta with title := "Beta edited" } },
    nextTask := none,
    deletingIdx := -1,
    saveMetricToggle := false,
    changesMade := false }

/-- Claim C5: with the editor open at an in-range index i, `saveMetric(target)`
splice-replaces exactly the element at index i of the metrics list by the
draft with its target set; every other index, the list length, and every
playbook field other than `metrics` are unchanged. -/
theorem saveMetric_commit_frame (s : CompState) (t : Int) (i : Nat) (m : Metric)
    (hce : s.curEditingMetric = some ⟨i, m⟩)
    (hi : i < s.playbook.metrics.length) :
    (saveMetric s t).playbook.metrics =
      jsSpliceReplaceOne s.playbook.metrics i { m with target := t } ∧
    (saveMetric s t).playbook.rest = s.playbook.rest ∧
    (saveMetric s t).playbook.metrics.length = s.playbook.metrics.length ∧
    (saveMetric s t).playbook.metrics[i]? = some { m with target := t } ∧
    (∀ k, k ≠ i → (saveMetric s t).playbook.metrics[k]? = s.playbook.metrics[k]?) := by
  have hpb := saveMetric_playbook s t i m hce
  have hms : (saveMetric s t).playbook.metrics =
      jsSpliceReplaceOne s.playbook.metrics i { m with target := t } := by
    rw [hpb]
  refine ⟨hms, ?_, ?_, ?_, ?_⟩
  · rw [hpb]
  · rw [hms]
    exact jsSpliceReplaceOne_length_of_lt _ _ _ hi
  · rw [hms, jsSpliceReplaceOne_getElem?, if_pos (by omega)]
  · intro k hk
    rw [hms, jsSpliceReplaceOne_getElem?, if_neg (by omega)]

/-- Witness for C5 at a concrete state: committing the edited draft at
index 1 of a three-element list. -/
theorem saveMetric_commit_frame_witness :
    (saveMetric stC5 5).playbook.metrics =
      jsSpliceReplaceOne stC5.playbook.metrics 1
        { { mBeta with title := "Beta edited" } with target := 5 } ∧
    (saveMetric stC5 5).playbook.rest = stC5.playbook.rest ∧
    (saveMetric stC5 5).playbook.metrics.length = stC5.playbook.metrics.length ∧
    (saveMetric stC5 5).playbook.metrics[1]? =
      some { { mBeta with title := "Beta edited" } with target := 5 } ∧
    (∀ k, k ≠ 1 → (saveMetric stC5 5).playbook.metrics[k]? = stC5.playbook.metrics[k]?) :=
  saveMetric_commit_frame stC5 5 1 { mBeta with title := "Beta edited" } rfl (by decide)

/-! ## Claim C6 -/

def stC6 : CompState :=
  { playbook := { metrics := [], rest := 0 },
    curEditingMetric := none,
    nextTask := none,
    deletingIdx := -1,
    saveMetricToggle := false,
    changesMade := false }

/-- Claim C6 counterexample: with the `disabled` prop set, the add-metric
control is disabled although the displayed list is empty (fewer than 4
entries), so "for every displayed list with fewer than 4 entries the control
is enabled" fails: the control's condition is `disabled || length >= 4`, not
`length >= 4` alone. -/
theorem addMetricDisabled_under_four_cex :
    addMetricDisabled stC6 true = true ∧ (displayedMetrics stC6).length < 4 := by
  decide

/-- Claim C6 (amended): when the component's `disabled` prop is false, the
add-metric control is disabled exactly when the displayed (draft-inclusive)
metrics list has 4 or more entries. -/
theorem addMetricDisabled_iff (s : CompState) :
    addMetricDisabled s false = true ↔ 4 ≤ (displayedMetrics s).length := by
  simp [addMetricDisabled]

/-! ## Claim C7 -/

def stC7 : CompState :=
  { playbook := { metrics := [mAlpha, mBeta], rest := 7 },
    curEditingMetric := some { index := 0, metric := { mAlpha with target := 99 } },
    nextTask := some (Task.delete 1),
    deletingIdx := -1,
    saveMetricToggle := true,
    changesMade := false }

/-- Claim C7: with the editor open at index i and a pending delete task for
index j (i different from j), a failed save discards the pending task, keeps
the editor open at i, keeps the delete prompt closed (sentinel -1), leaves
the playbook unchanged, and the dropped task is never retried: a later
successful save still leaves the prompt closed. -/
theorem saveFailed_drops_pending_delete (s : CompState) (t : Int)
    (i j : Nat) (m : Metric)
    (hce : s.curEditingMetric = some ⟨i, m⟩)
    (_hnt : s.nextTask = some (Task.delete j))
    (_hij : i ≠ j)
    (hdel : s.deletingIdx = -1) :
    (saveFailed s).nextTask = none ∧
    (saveFailed s).curEditingMetric = some ⟨i, m⟩ ∧
    (saveFailed s).deletingIdx = -1 ∧
    (saveFailed s).playbook = s.playbook ∧
    (saveMetric (saveFailed s) t).deletingIdx = -1 := by
  refine ⟨rfl, ?_, ?_, rfl, ?_⟩
  · simpa [saveFailed] using hce
  · simpa [saveFailed] using hdel
  · simp [saveMetric, saveFailed, hce, hdel]

/-- Witness for C7 at a concrete state: editing index 0, pending delete of
index 1, simulated failed save then a successful save with target 5. -/
theorem saveFailed_drops_pending_delete_witness :
    (saveFailed stC7).nextTask = none ∧
    (saveFailed stC7).curEditingMetric = some ⟨0, { mAlpha with target := 99 }⟩ ∧
    (saveFailed stC7).deletingIdx = -1 ∧
    (saveFailed stC7).playbook = stC7.playbook ∧
    (saveMetric (saveFailed stC7) 5).deletingIdx = -1 :=
  saveFailed_drops_pending_delete stC7 5 0 1 { mAlpha with target := 99 }
    rfl rfl (by decide) rfl

/-! ## Claim C8 -/

def stC8a : CompState :=
  { playbook := { metrics := [mAlpha, mBeta], rest := 7 },
    curEditingMetric := some { index := 1, metric := mBeta },
    nextTask := none,
    deletingIdx := -1,
    saveMetricToggle := false,
    changesMade := false }

def stC8b : CompState :=
  { playbook := { metrics := [mAlpha, mBeta], rest := 7 },
    curEditingMetric := some { index := 0, metric := mAlpha },
    nextTask := none,
    deletingIdx := -1,
    saveMetricToggle := false,
    changesMade := false }

/-- Claim C8: `requestDeleteMetric(index)` opens the delete prompt for
`index` immediately and changes nothing else (no pending task created, save
toggle untouched) exactly when no editor is open or the open editor's index
equals `index`; otherwise it only records a pending delete task and flips the
save toggle, leaving `deletingIdx` (the -1 sentinel) untouched. -/
theorem requestDeleteMetric_cases (s : CompState) (i : Nat) :
    ((s.curEditingMetric = none ∨ ∃ em, s.curEditingMetric = some em ∧ em.index = i) →
       requestDeleteMetric s i = { s with deletingIdx := (i : Int) }) ∧
    (∀ em, s.curEditingMetric = some em → em.index ≠ i →
       requestDeleteMetric s i =
         { s with
             nextTask := some (Task.delete i),
             saveMetricToggle := !s.saveMetricToggle }) := by
  constructor
  · rintro (hce | ⟨em, hce, hidx⟩)
    · simp [requestDeleteMetric, hce]
    · simp [requestDeleteMetric, hce, hidx]
  · intro em hce hidx
    simp [requestDeleteMetric, hce, hidx]

/-- Witness for C8 at two concrete states: deleting the index being edited
(immediate prompt) and deleting another index (pending task and toggle). -/
theorem requestDeleteMetric_cases_witness :
    requestDeleteMetric stC8a 1 = { stC8a with deletingIdx := (1 : Int) } ∧
    requestDeleteMetric stC8b 1 =
      { stC8b with
          nextTask := some (Task.delete 1),
          saveMetricToggle := !stC8b.saveMetricToggle } :=
  ⟨(requestDeleteMetric_cases stC8a 1).1
      (Or.inr ⟨{ index := 1, metric := mBeta }, rfl, rfl⟩),
   (requestDeleteMetric_cases stC8b 1).2 { index := 0, metric := mAlpha } rfl (by decide)⟩

/-! ## Claim C9 -/

def stC9 : CompState :=
  { playbook := { metrics := [mAlpha, mBeta], rest := 7 },
    curEditingMetric := some { index := 0, metric := { mAlpha with title := "Alpha edited" } },
    nextTask := some (Task.edit 0),
    deletingIdx := -1,
    saveMetricToggle := true,
    changesMade := false }

/-- Claim C9: with the editor open at index i and a pending edit task for the
SAME index i, `saveMetric(target)` reopens the editor at i with a draft taken
from the pre-commit snapshot of the metrics list (the render-time closure
value), while the committed list holds the draft with the just-saved target:
the reopened draft carries the pre-save record, not the committed one. -/
theorem saveMetric_pending_edit_same_index_stale (s : CompState) (t : Int)
    (i : Nat) (m : Metric)
    (hce : s.curEditingMetric = some ⟨i, m⟩)
    (hnt : s.nextTask = some (Task.edit i))
    (hi : i < s.playbook.metrics.length) :
    (saveMetric s t).curEditingMetric =
      some { index := i, metric := getMetric s.playbook.metrics i } ∧
    getMetric (saveMetric s t).playbook.metrics i = { m with target := t } := by
  constructor
  · simp [saveMetric, hce, hnt]
  · have hpb := saveMetric_playbook s t i m hce
    have hms : (saveMetric s t).playbook.metrics =
        jsSpliceReplaceOne s.playbook.metrics i { m with target := t } := by
      rw [hpb]
    rw [hms]
    exact getMetric_spliceReplace_self _ _ _ hi

/-- Witness for C9 at a concrete state: re-editing index 0 right after saving
it with target 5 reopens the OLD record (target 10), while the committed list
holds the new target 5. -/
theorem saveMetric_pending_edit_same_index_stale_witness :
    (saveMetric stC9 5).curEditingMetric =
      some { index := 0, metric := getMetric stC9.playbook.metrics 0 } ∧
    getMetric (saveMetric stC9 5).playbook.metrics 0 =
      { { mAlpha with title := "Alpha edited" } with target := 5 } :=
  saveMetric_pending_edit_same_index_stale stC9 5 0
    { mAlpha with title := "Alpha edited" } rfl rfl (by decide)

/-! ## Claim C10 -/

def stC10 : CompState :=
  { playbook := { metrics := [mAlpha], rest := 7 },
    curEditingMetric := none,
    nextTask := none,
    deletingIdx := -1,
    saveMetricToggle := false,
    changesMade := false }

/-- Claim C10: `requestAddMetric(type)` with no open editor leaves the
committed playbook entirely unchanged (the new draft lives only in the
editing state, at index equal to the list length) yet sets the changes-made
flag to true immediately, before any save commits the draft. -/
theorem requestAddMetric_idle_frame (s : CompState) (T : MetricType)
    (hce : s.curEditingMetric = none) :
    (requestAddMetric s T).playbook = s.playbook ∧
    (requestAddMetric s T).curEditingMetric =
      some { index := s.playbook.metrics.length, metric := newMetric T } ∧
    (requestAddMetric s T).changesMade = true := by
  refine ⟨?_, ?_, ?_⟩ <;> simp [requestAddMetric, hce, addMetric]

/-- Witness for C10 at a concrete state: adding a currency metric while
idle. -/
theorem requestAddMetric_idle_frame_witness :
    (requestAddMetric stC10 MetricType.currency).playbook = stC10.playbook ∧
    (requestAddMetric stC10 MetricType.currency).curEditingMetric =
      some { index := stC10.playbook.metrics.length,
             metric := newMetric MetricType.currency } ∧
    (requestAddMetric stC10 MetricType.currency).changesMade = true :=
  requestAddMetric_idle_frame stC10 MetricType.currency rfl

end PlaybookMetrics
